import Mathlib

/-!
# Medimetry: shallow embedding and verification

A shallow embedding of the clinical-calculation functions of the
`medimetry` Python package, with theorems settling the specification
claims.  Python floats are modelled as exact rationals (`ℚ`); the few
places where Python computes a transcendental power (`**` with a
non-integer exponent) take the float power function as an explicit
argument `powf`.  Python exceptions are modelled by `Except PyError`.
-/

deriving instance DecidableEq for Except

namespace Medimetry

/-- The Python exception kinds raised by the package: `ValueError`,
`AssertionError` (from `assert` statements) and `ZeroDivisionError`. -/
inductive PyError where
  | valueError (msg : String)
  | assertionError (msg : String)
  | zeroDivisionError (msg : String)
deriving DecidableEq, Repr

/-- The exception class of an error, forgetting the message. -/
inductive ErrKind where
  | valueK
  | assertK
  | zeroDivK
deriving DecidableEq, Repr

def PyError.kind : PyError → ErrKind
  | .valueError _ => .valueK
  | .assertionError _ => .assertK
  | .zeroDivisionError _ => .zeroDivK

/-- The exception class with which a computation failed, if it failed. -/
def errKind {α : Type} : Except PyError α → Option ErrKind
  | .error e => some e.kind
  | .ok _ => none

/-- Python float division: raises `ZeroDivisionError` on a zero divisor
(unlike IEEE arithmetic, Python raises for `x / 0.0`). -/
def fdiv (a b : ℚ) : Except PyError ℚ :=
  if b = 0 then .error (.zeroDivisionError "float division by zero")
  else .ok (a / b)

/-- Python `round(x)` to an integer: round half to even. -/
def pyRoundInt (x : ℚ) : ℤ :=
  if x - ⌊x⌋ < 1/2 then ⌊x⌋
  else if 1/2 < x - ⌊x⌋ then ⌊x⌋ + 1
  else if ⌊x⌋ % 2 = 0 then ⌊x⌋ else ⌊x⌋ + 1

/-- Python `round(x, d)` to `d` decimal places (round half to even). -/
def pyRoundDec (d : ℕ) (x : ℚ) : ℚ :=
  (pyRoundInt (x * 10 ^ d) : ℚ) / 10 ^ d

/-- Modelled from the spec: the shared `Sex` enumeration lives in
`medimetry/__init__.py`, which is not among the sources; the spec lists
its members as male/female/diverse. -/
inductive Sex where
  | male
  | female
  | diverse
deriving DecidableEq, Repr

/-- Enum `EthnicalRace` from `constants.py`. -/
inductive EthnicalRace where
  | africanAmerican
  | european
  | other
deriving DecidableEq, Repr

/-- Enum `QtcCorrectionType` from `constants.py`. -/
inductive QtcCorrectionType where
  | bazett
  | fridericia
  | framingham
  | hodges
deriving DecidableEq, Repr

/-! ## converters.py -/

/-- A Python float as used by the unit converters: a finite (exact
rational) value, positive or negative infinity, or not-a-number. -/
inductive PyFloat where
  | finite (q : ℚ)
  | inf
  | ninf
  | nan
deriving DecidableEq, Repr

/-- Python `==` on floats: any comparison with not-a-number is false. -/
def pyEq (a b : PyFloat) : Bool :=
  match a, b with
  | .nan, _ => false
  | _, .nan => false
  | x, y => decide (x = y)

/-- Multiplication of a float by the positive constant 18.01528
(IEEE semantics on the special values). -/
def mulMolar : PyFloat → PyFloat
  | .finite q => .finite (q * 18.01528)
  | .inf => .inf
  | .ninf => .ninf
  | .nan => .nan

/-- Division of a float by the positive constant 18.01528
(IEEE semantics on the special values). -/
def divMolar : PyFloat → PyFloat
  | .finite q => .finite (q / 18.01528)
  | .inf => .inf
  | .ninf => .ninf
  | .nan => .nan

/-- Function `converters.umoll2mgdl`. -/
def umoll2mgdl (umoll : PyFloat) : Except PyError PyFloat :=
  if pyEq umoll .inf then
    .error (.valueError "Cannot convert infinity to mg/dL")
  else if pyEq umoll .ninf then
    .error (.valueError "Cannot convert negative infinity to mg/dL")
  else
    .ok (mulMolar umoll)

/-- Function `converters.mgdl2umoll`. -/
def mgdl2umoll (mgdl : PyFloat) : Except PyError PyFloat :=
  if pyEq mgdl .inf then
    .error (.valueError "Cannot convert infinity to mg/dL")
  else if pyEq mgdl .ninf then
    .error (.valueError "Cannot convert negative infinity to mg/dL")
  else
    .ok (divMolar mgdl)

/-- A calendar date as `datetime.date` carries it (year, month, day). -/
structure Date where
  year : ℤ
  month : ℤ
  day : ℤ
deriving DecidableEq, Repr

/-- Python `calendar.isleap`: Gregorian leap-year rule. -/
def isLeapYear (y : ℤ) : Bool :=
  decide (y % 4 = 0 ∧ (y % 100 ≠ 0 ∨ y % 400 = 0))

/-- Python `calendar.monthrange(y, m)[1]`: the number of days of month `m`
of year `y` (months 1–12). -/
def daysInMonth (y m : ℤ) : ℤ :=
  if m = 1 ∨ m = 3 ∨ m = 5 ∨ m = 7 ∨ m = 8 ∨ m = 10 ∨ m = 12 then 31
  else if m = 4 ∨ m = 6 ∨ m = 9 ∨ m = 11 then 30
  else if m = 2 then (if isLeapYear y then 29 else 28)
  else 0

/-- Function `converters.dob2age` with an explicit reference date. -/
def dob2age (dob today : Date) : ℤ :=
  let ageYears := today.year - dob.year
  if today.month < dob.month ∨ (today.month = dob.month ∧ today.day < dob.day) then
    ageYears - 1
  else
    ageYears

/-- Function `converters.dob2age_tuple` with an explicit reference date. -/
def dob2age_tuple (dob today : Date) : ℤ × ℤ × ℤ :=
  let years := today.year - dob.year
  let months := today.month - dob.month
  let days := today.day - dob.day
  let md : ℤ × ℤ :=
    if days < 0 then
      let prev : ℤ × ℤ :=
        if today.month = 1 then (today.year - 1, 12) else (today.year, today.month - 1)
      (months - 1, days + daysInMonth prev.1 prev.2)
    else (months, days)
  let ym : ℤ × ℤ :=
    if md.1 < 0 then (years - 1, md.1 + 12) else (years, md.1)
  (ym.1, ym.2, md.2)

/-! ## anthropometric.py -/

/-- Function `anthropometric.bmi`: weight in kg, height in metres. -/
def bmi (weight height : ℚ) : Except PyError ℚ :=
  if weight ≤ 0 then .error (.valueError "Weight must be positive")
  else if 300 < weight then .error (.valueError "Weight must be lower than 300 kilograms")
  else if height ≤ 0 then .error (.valueError "Height must be positive")
  else if 3 < height then
    .error (.valueError "Height must be lower than 3 meters (did you provide centimeters?)")
  else .ok (pyRoundDec 1 (weight / height ^ 2))

/-- Function `anthropometric.bmi_from_cm`: weight in kg, height in centimetres. -/
def bmi_from_cm (weight height_cm : ℚ) : Except PyError ℚ :=
  if height_cm ≤ 0 then .error (.valueError "Height must be positive")
  else if height_cm ≤ 10 then
    .error (.valueError "Height must be above 10 centimeters (did you provide meters?)")
  else bmi weight (height_cm / 100)

/-! ## neuro.py -/

/-- GCS eye response (`NOT_TESTABLE` has numeric value -20). -/
inductive EyeResponse where
  | notTestable
  | none
  | toPain
  | toVerbal
  | spontaneous
deriving DecidableEq, Repr, Fintype

/-- GCS verbal response (`NOT_TESTABLE` has numeric value -20). -/
inductive VerbalResponse where
  | notTestable
  | none
  | incomprehensibleSounds
  | inappropriateWords
  | confused
  | oriented
deriving DecidableEq, Repr, Fintype

/-- GCS motor response (`NOT_TESTABLE` has numeric value -20). -/
inductive MotorResponse where
  | notTestable
  | none
  | extensionToPain
  | flexionToPain
  | withdrawalFromPain
  | localizesPain
  | obeysCommands
deriving DecidableEq, Repr, Fintype

inductive GCSCategory where
  | severe
  | moderate
  | mild
deriving DecidableEq, Repr, Fintype

def EyeResponse.value : EyeResponse → ℤ
  | .notTestable => -20
  | .none => 1
  | .toPain => 2
  | .toVerbal => 3
  | .spontaneous => 4

def VerbalResponse.value : VerbalResponse → ℤ
  | .notTestable => -20
  | .none => 1
  | .incomprehensibleSounds => 2
  | .inappropriateWords => 3
  | .confused => 4
  | .oriented => 5

def MotorResponse.value : MotorResponse → ℤ
  | .notTestable => -20
  | .none => 1
  | .extensionToPain => 2
  | .flexionToPain => 3
  | .withdrawalFromPain => 4
  | .localizesPain => 5
  | .obeysCommands => 6

/-- Function `neuro.glasgow_coma_scale`.  The Python `isinstance` checks are
subsumed by typing here, so the function is total. -/
def glasgow_coma_scale (eye_response : EyeResponse) (verbal_response : VerbalResponse)
    (motor_response : MotorResponse) : ℤ × GCSCategory :=
  let total_score := eye_response.value + verbal_response.value + motor_response.value
  let category :=
    if total_score ≤ 8 then GCSCategory.severe
    else if total_score ≤ 12 then GCSCategory.moderate
    else GCSCategory.mild
  (total_score, category)

/-- The Python enum constructor `EyeResponse(n)`: the member with
numeric value `n`, when one exists. -/
def eyeFromScore (n : ℤ) : Option EyeResponse :=
  if n = -20 then some .notTestable
  else if n = 1 then some .none
  else if n = 2 then some .toPain
  else if n = 3 then some .toVerbal
  else if n = 4 then some .spontaneous
  else Option.none

/-- The Python enum constructor `VerbalResponse(n)`. -/
def verbalFromScore (n : ℤ) : Option VerbalResponse :=
  if n = -20 then some .notTestable
  else if n = 1 then some .none
  else if n = 2 then some .incomprehensibleSounds
  else if n = 3 then some .inappropriateWords
  else if n = 4 then some .confused
  else if n = 5 then some .oriented
  else Option.none

/-- The Python enum constructor `MotorResponse(n)`. -/
def motorFromScore (n : ℤ) : Option MotorResponse :=
  if n = -20 then some .notTestable
  else if n = 1 then some .none
  else if n = 2 then some .extensionToPain
  else if n = 3 then some .flexionToPain
  else if n = 4 then some .withdrawalFromPain
  else if n = 5 then some .localizesPain
  else if n = 6 then some .obeysCommands
  else Option.none

/-- Function `neuro.gcs_from_scores`. -/
def gcs_from_scores (eye verbal motor : ℤ) : Except PyError (ℤ × GCSCategory) :=
  if ¬ (1 ≤ eye ∧ eye ≤ 4) then
    .error (.valueError "Eye response must be between 1 and 4")
  else if ¬ (1 ≤ verbal ∧ verbal ≤ 5) then
    .error (.valueError "Verbal response must be between 1 and 5")
  else if ¬ (1 ≤ motor ∧ motor ≤ 6) then
    .error (.valueError "Motor response must be between 1 and 6")
  else
    match eyeFromScore eye, verbalFromScore verbal, motorFromScore motor with
    | some er, some vr, some mr => .ok (glasgow_coma_scale er vr mr)
    | _, _, _ => .error (.valueError "not a valid response value")

/-! ## metabolic.py -/

inductive ChildPughGrade where
  | A
  | B
  | C
deriving DecidableEq, Repr

inductive AscitesSeverity where
  | none
  | slight
  | moderate
deriving DecidableEq, Repr

inductive EncephalopathyGrade where
  | none
  | grade1_2
  | grade3_4
deriving DecidableEq, Repr

/-- Function `metabolic.child_pugh_score`.  The Python membership tests
`ascites not in AscitesSeverity` are subsumed by typing here. -/
def child_pugh_score (bilirubin albumin inr : ℚ) (ascites : AscitesSeverity)
    (encephalopathy : EncephalopathyGrade) : Except PyError (ℤ × ChildPughGrade) :=
  if bilirubin < 0 then .error (.valueError "Bilirubin must be non-negative")
  else if albumin < 0 then .error (.valueError "Albumin must be non-negative")
  else if inr < 0 then .error (.valueError "INR must be non-negative")
  else
    let score : ℤ :=
      (if bilirubin < 2.0 then 1 else if bilirubin ≤ 3.0 then 2 else 3)
      + (if 3.5 < albumin then 1 else if 2.8 ≤ albumin then 2 else 3)
      + (if inr < 1.7 then 1 else if inr ≤ 2.3 then 2 else 3)
      + (match ascites with
         | .none => 1
         | .slight => 2
         | .moderate => 3)
      + (match encephalopathy with
         | .none => 1
         | .grade1_2 => 2
         | .grade3_4 => 3)
    let grade :=
      if score ≤ 6 then ChildPughGrade.A
      else if score ≤ 9 then ChildPughGrade.B
      else ChildPughGrade.C
    .ok (score, grade)

/-! ## cardio.py -/

/-- Function `cardio.chads_vasc_score`.  The `age <= 0` check raises
`ValueError`; the sex check is a Python `assert`, raising
`AssertionError`. -/
def chads_vasc_score (age : ℤ) (sex : Sex) (chf hypertension stroke_vascular_history
    diabetes vascular_disease : Bool) : Except PyError ℤ :=
  if age ≤ 0 then .error (.valueError "Age must be non-negative")
  else if ¬ (sex = Sex.male ∨ sex = Sex.female) then
    .error (.assertionError "Sex must be Sex.MALE or Sex.FEMALE")
  else
    let score : ℤ :=
      (if 75 ≤ age then 2 else if 65 ≤ age then 1 else 0)
      + (if sex = Sex.female then 1 else 0)
      + (if chf then 1 else 0)
      + (if hypertension then 1 else 0)
      + (if diabetes then 1 else 0)
      + (if vascular_disease then 1 else 0)
      + (if stroke_vascular_history then 2 else 0)
    .ok score

/-! ## cardiac.py -/

/-- Function `cardiac.qtc_correction`.  The Python float power `rr ** e` is
modelled by the explicit argument `powf`; divisions follow Python float
division (`ZeroDivisionError` on a zero divisor). -/
def qtc_correction (powf : ℚ → ℚ → ℚ) (qt_interval : ℚ) (heart_rate : ℤ)
    (formula : QtcCorrectionType) : Except PyError ℚ :=
  if qt_interval ≤ 0 then .error (.valueError "QT interval must be positive")
  else if heart_rate ≤ 0 then .error (.valueError "Heart rate must be positive")
  else if 300 < heart_rate then .error (.valueError "Heart rate must be at most 300 bpm")
  else
    let rr_interval : ℚ := 60 / (heart_rate : ℚ)
    let qtc : Except PyError ℚ :=
      match formula with
      | .bazett => fdiv qt_interval (powf rr_interval (1/2))
      | .fridericia => fdiv qt_interval (powf rr_interval (1/3))
      | .framingham => .ok (qt_interval + 154 * (1 - rr_interval))
      | .hodges => .ok (qt_interval + 1.75 * ((heart_rate : ℚ) - 60))
    qtc.map (pyRoundDec 1)

/-! ## renal.py -/

/-- The optional-height check of `cockcroft_gault`:
`height is None or (0 < height < 150)`. -/
def heightOk : Option ℚ → Bool
  | Option.none => true
  | some h => decide (0 < h ∧ h < 150)

/-- Function `renal.cockcroft_gault`.  All validation is by `assert`
(`AssertionError`); the division follows Python float division, and the
result is `round`ed to an integer (half to even). -/
def cockcroft_gault (age : ℤ) (weight creatinine : ℚ) (sex : Sex)
    (height : Option ℚ := Option.none) : Except PyError ℤ :=
  if ¬ (0 < weight) then .error (.assertionError "Weight must be positive")
  else if ¬ (weight < 400) then .error (.assertionError "Weight must be less than 400 kg")
  else if ¬ (0 < age) then .error (.assertionError "Age must be positive")
  else if ¬ (0 ≤ creatinine) then .error (.assertionError "Creatinine must be non-negative")
  else if ¬ (sex = Sex.male ∨ sex = Sex.female) then
    .error (.assertionError "Sex must be m or f")
  else if ¬ heightOk height then
    .error (.assertionError "Height must be positive and less than 150 cm")
  else
    (fdiv ((140 - (age : ℚ)) * weight) (72 * creatinine)).map fun clearance =>
      pyRoundInt (if sex = Sex.female then clearance * 0.85 else clearance)

/-- Function `renal.mdrd`.  The Python float powers `creatinine ** -1.154` and
`age ** -0.203` are modelled by the explicit argument `powf`.  The
result is returned unrounded. -/
def mdrd (powf : ℚ → ℚ → ℚ) (creatinine : ℚ) (age : ℤ) (sex : Sex)
    (race : EthnicalRace := EthnicalRace.other) : Except PyError ℚ :=
  if ¬ (0 < creatinine) then .error (.assertionError "Creatinine must be positive")
  else if ¬ (0 < age) then .error (.assertionError "Age must be positive")
  else if ¬ (sex = Sex.male ∨ sex = Sex.female) then
    .error (.assertionError "Sex must be MALE or FEMALE")
  else
    let egfr : ℚ := 175 * powf creatinine (-1.154) * powf (age : ℚ) (-0.203)
    let egfr := if sex = Sex.female then egfr * 0.742 else egfr
    let egfr := if race = EthnicalRace.africanAmerican then egfr * 1.212 else egfr
    .ok egfr

/-! ## Theorems for the claims -/

/-- C4: `umoll2mgdl` and `mgdl2umoll` each fail with an invalid-input
(`ValueError`) on positive and on negative infinity, with a distinct
message for each sign; not-a-number passes through unchanged without
raising; every finite input is multiplied by (resp. divided by)
18.01528. -/
theorem claim4_converters_special_values :
    (umoll2mgdl .inf = .error (.valueError "Cannot convert infinity to mg/dL")
      ∧ umoll2mgdl .ninf = .error (.valueError "Cannot convert negative infinity to mg/dL")
      ∧ mgdl2umoll .inf = .error (.valueError "Cannot convert infinity to mg/dL")
      ∧ mgdl2umoll .ninf = .error (.valueError "Cannot convert negative infinity to mg/dL")
      ∧ ("Cannot convert infinity to mg/dL" : String)
          ≠ "Cannot convert negative infinity to mg/dL")
    ∧ (umoll2mgdl .nan = .ok .nan ∧ mgdl2umoll .nan = .ok .nan)
    ∧ (∀ q : ℚ, umoll2mgdl (.finite q) = .ok (.finite (q * 18.01528))
        ∧ mgdl2umoll (.finite q) = .ok (.finite (q / 18.01528))) :=
  ⟨⟨rfl, rfl, rfl, rfl, by decide⟩, ⟨rfl, rfl⟩, fun _ => ⟨rfl, rfl⟩⟩

/-- C9: `glasgow_coma_scale` accepts `NOT_TESTABLE` components; with at
least one `NOT_TESTABLE` component the total is at most -9 (and at
least -60, attained at three `NOT_TESTABLE` components) and the
category is always severe. -/
theorem claim9_gcs_not_testable :
    (∀ (er : EyeResponse) (vr : VerbalResponse) (mr : MotorResponse),
        er = .notTestable ∨ vr = .notTestable ∨ mr = .notTestable →
        (glasgow_coma_scale er vr mr).1 ≤ -9
          ∧ -60 ≤ (glasgow_coma_scale er vr mr).1
          ∧ (glasgow_coma_scale er vr mr).2 = .severe)
    ∧ glasgow_coma_scale .notTestable .notTestable .notTestable = (-60, .severe) :=
  ⟨by decide, by decide⟩

/-- Witness for C9 at a concrete input. -/
theorem claim9_gcs_not_testable_witness :
    (glasgow_coma_scale .notTestable .oriented .obeysCommands).1 ≤ -9
      ∧ -60 ≤ (glasgow_coma_scale .notTestable .oriented .obeysCommands).1
      ∧ (glasgow_coma_scale .notTestable .oriented .obeysCommands).2 = .severe :=
  claim9_gcs_not_testable.1 _ _ _ (Or.inl rfl)

/-- C5: over the full cross-product of testable responses
(equivalently, integer scores eye 1–4, verbal 1–5, motor 1–6), the GCS
total equals the component sum, lies in 3–15, and the category matches
the severe (at most 8) / moderate (9–12) / mild (at least 13)
thresholds. -/
theorem claim5_gcs_cross_product :
    (∀ (er : EyeResponse) (vr : VerbalResponse) (mr : MotorResponse),
        er ≠ .notTestable → vr ≠ .notTestable → mr ≠ .notTestable →
        (glasgow_coma_scale er vr mr).1 = er.value + vr.value + mr.value
          ∧ 3 ≤ (glasgow_coma_scale er vr mr).1 ∧ (glasgow_coma_scale er vr mr).1 ≤ 15
          ∧ ((glasgow_coma_scale er vr mr).2 = .severe ↔ (glasgow_coma_scale er vr mr).1 ≤ 8)
          ∧ ((glasgow_coma_scale er vr mr).2 = .moderate ↔
              9 ≤ (glasgow_coma_scale er vr mr).1 ∧ (glasgow_coma_scale er vr mr).1 ≤ 12)
          ∧ ((glasgow_coma_scale er vr mr).2 = .mild ↔ 13 ≤ (glasgow_coma_scale er vr mr).1))
    ∧ (∀ e v m : ℤ, 1 ≤ e → e ≤ 4 → 1 ≤ v → v ≤ 5 → 1 ≤ m → m ≤ 6 →
        ∃ cat : GCSCategory, gcs_from_scores e v m = .ok (e + v + m, cat)
          ∧ 3 ≤ e + v + m ∧ e + v + m ≤ 15
          ∧ (cat = .severe ↔ e + v + m ≤ 8)
          ∧ (cat = .moderate ↔ 9 ≤ e + v + m ∧ e + v + m ≤ 12)
          ∧ (cat = .mild ↔ 13 ≤ e + v + m)) := by
  constructor
  · decide
  · intro e v m he1 he4 hv1 hv5 hm1 hm6
    interval_cases e <;> interval_cases v <;> interval_cases m <;> decide

/-- Witness for C5 at concrete scores. -/
theorem claim5_gcs_cross_product_witness :
    gcs_from_scores 4 5 6 = .ok (4 + 5 + 6, GCSCategory.mild) ∧ (13 : ℤ) ≤ 4 + 5 + 6 := by
  obtain ⟨cat, hok, -, -, -, -, hmild⟩ :=
    claim5_gcs_cross_product.2 4 5 6 (by norm_num) (by norm_num) (by norm_num)
      (by norm_num) (by norm_num) (by norm_num)
  have hcat : cat = GCSCategory.mild := hmild.mpr (by norm_num)
  exact ⟨hcat ▸ hok, by norm_num⟩

/-- C1 counterexample: at age 40, weight 70, creatinine 1, male,
`cockcroft_gault` returns 97, which is not the unrounded value
(140-40)*70/(72*1) = 875/9 of its documented expression. -/
theorem claim1_counterexample :
    cockcroft_gault 40 70 1 Sex.male Option.none = .ok 97
    ∧ ¬(((97 : ℤ) : ℚ) = ((140 - ((40 : ℤ) : ℚ)) * 70) / (72 * 1)) := by
  constructor
  · have h : ¬(Sex.male = Sex.female) := by decide
    norm_num [cockcroft_gault, heightOk, fdiv, Except.map, pyRoundInt, h]
  · norm_num

/-- C1 (amended): for every valid input, `cockcroft_gault` returns its
documented expression (with the 0.85 female factor) rounded to the
nearest integer, half to even, while `mdrd` returns its documented
expression with its sex/race factors unrounded. -/
theorem claim1_renal_formulas (powf : ℚ → ℚ → ℚ) (age : ℤ)
    (weight creatinine : ℚ) (sex : Sex) (race : EthnicalRace)
    (hw0 : 0 < weight) (hw : weight < 400) (ha : 0 < age) (hc : 0 < creatinine)
    (hs : sex = Sex.male ∨ sex = Sex.female) :
    cockcroft_gault age weight creatinine sex Option.none
      = .ok (pyRoundInt ((((140 - (age : ℚ)) * weight) / (72 * creatinine))
          * (if sex = Sex.female then 0.85 else 1)))
    ∧ mdrd powf creatinine age sex race
      = .ok (175 * powf creatinine (-1.154) * powf (age : ℚ) (-0.203)
          * (if sex = Sex.female then 0.742 else 1)
          * (if race = EthnicalRace.africanAmerican then 1.212 else 1)) := by
  have h72 : ¬((72 : ℚ) * creatinine = 0) := by positivity
  constructor
  · unfold cockcroft_gault
    rw [if_neg (not_not_intro hw0), if_neg (not_not_intro hw), if_neg (not_not_intro ha),
      if_neg (not_not_intro hc.le), if_neg (not_not_intro hs), if_neg (by simp [heightOk])]
    unfold fdiv
    rw [if_neg h72]
    simp only [Except.map]
    congr 1
    split_ifs with hf
    · ring
    · ring_nf
  · unfold mdrd
    rw [if_neg (not_not_intro hc), if_neg (not_not_intro ha), if_neg (not_not_intro hs)]
    split_ifs with h1 h2 <;> exact congrArg Except.ok (by ring_nf)

/-- Witness for C1 (amended) at a concrete input. -/
theorem claim1_renal_formulas_witness :
    cockcroft_gault 40 70 1 Sex.male Option.none
      = .ok (pyRoundInt ((((140 - ((40 : ℤ) : ℚ)) * 70) / (72 * 1))
          * (if Sex.male = Sex.female then 0.85 else 1)))
    ∧ mdrd (fun _ _ => 1) 1 40 Sex.male EthnicalRace.other
      = .ok (175 * (fun _ _ => (1 : ℚ)) (1 : ℚ) (-1.154)
          * (fun _ _ => (1 : ℚ)) ((40 : ℤ) : ℚ) (-0.203)
          * (if Sex.male = Sex.female then 0.742 else 1)
          * (if EthnicalRace.other = EthnicalRace.africanAmerican then 1.212 else 1)) :=
  claim1_renal_formulas (fun _ _ => 1) 40 70 1 Sex.male EthnicalRace.other
    (by norm_num) (by norm_num) (by norm_num) (by norm_num) (Or.inl rfl)

/-- C2 counterexample: at weight 1 and height 1/16 m (within the
claimed ranges), `bmi` succeeds but `bmi_from_cm` with height
(1/16)*100 = 6.25 cm raises, so the two do not agree. -/
theorem claim2_counterexample :
    (0 : ℚ) < 1 ∧ (1 : ℚ) ≤ 300 ∧ (0 : ℚ) < 1/16 ∧ (1/16 : ℚ) ≤ 3
    ∧ bmi 1 (1/16) = .ok 256
    ∧ bmi_from_cm 1 ((1/16) * 100)
        = .error (.valueError "Height must be above 10 centimeters (did you provide meters?)") := by
  refine ⟨by norm_num, by norm_num, by norm_num, by norm_num, ?_, ?_⟩
  · norm_num [bmi, pyRoundDec, pyRoundInt]
  · norm_num [bmi_from_cm]

/-- C2 (amended): for weight in (0, 300] and height in (0, 3] metres,
`bmi` returns round(w/h², 1) without raising, and `bmi_from_cm(w, h*100)`
agrees with `bmi(w, h)` provided h*100 exceeds the 10 cm lower bound
that `bmi_from_cm` additionally enforces (h > 1/10). -/
theorem claim2_bmi (w h : ℚ) (hw0 : 0 < w) (hw : w ≤ 300) (hh0 : 0 < h) (hh : h ≤ 3) :
    bmi w h = .ok (pyRoundDec 1 (w / h ^ 2))
    ∧ (1/10 < h → bmi_from_cm w (h * 100) = bmi w h) := by
  have hb : bmi w h = .ok (pyRoundDec 1 (w / h ^ 2)) := by
    unfold bmi
    rw [if_neg (not_le.mpr hw0), if_neg (not_lt.mpr hw), if_neg (not_le.mpr hh0),
      if_neg (not_lt.mpr hh)]
  refine ⟨hb, fun h10 => ?_⟩
  unfold bmi_from_cm
  rw [if_neg (by linarith), if_neg (by linarith)]
  have h100 : h * 100 / 100 = h := by ring
  rw [h100]

/-- Witness for C2 (amended) at a concrete input. -/
theorem claim2_bmi_witness :
    bmi 70 (7/4) = .ok (pyRoundDec 1 (70 / (7/4 : ℚ) ^ 2))
    ∧ (1/10 < (7/4 : ℚ) → bmi_from_cm 70 ((7/4) * 100) = bmi 70 (7/4)) :=
  claim2_bmi 70 (7/4) (by norm_num) (by norm_num) (by norm_num) (by norm_num)

/-- C3 counterexample: `chads_vasc_score` with age 0 fails with a
`ValueError` while with an unrecognized sex it fails with an
`AssertionError` — two different error kinds. -/
theorem claim3_counterexample :
    errKind (chads_vasc_score 0 Sex.male false false false false false)
      = some ErrKind.valueK
    ∧ errKind (chads_vasc_score 30 Sex.diverse false false false false false)
      = some ErrKind.assertK
    ∧ ErrKind.valueK ≠ ErrKind.assertK := by
  refine ⟨by decide, by decide, by decide⟩

/-- C3 (amended): an unrecognized sex makes both functions fail with an
`AssertionError`; `cockcroft_gault` also reports non-positive weight as
an `AssertionError` (the same kind), but `chads_vasc_score` reports
non-positive age as a `ValueError`, a different kind. -/
theorem claim3_error_kinds :
    (∀ (age : ℤ) (c h s d v : Bool), 0 < age →
        errKind (chads_vasc_score age Sex.diverse c h s d v) = some ErrKind.assertK)
    ∧ (∀ (age : ℤ) (sex : Sex) (c h s d v : Bool), age ≤ 0 →
        errKind (chads_vasc_score age sex c h s d v) = some ErrKind.valueK)
    ∧ (∀ (age : ℤ) (w cr : ℚ) (ht : Option ℚ), 0 < w → w < 400 → 0 < age → 0 ≤ cr →
        errKind (cockcroft_gault age w cr Sex.diverse ht) = some ErrKind.assertK)
    ∧ (∀ (age : ℤ) (w cr : ℚ) (sex : Sex) (ht : Option ℚ), w ≤ 0 →
        errKind (cockcroft_gault age w cr sex ht) = some ErrKind.assertK) := by
  refine ⟨?_, ?_, ?_, ?_⟩
  · intro age c h s d v ha
    unfold chads_vasc_score
    rw [if_neg (not_le.mpr ha), if_pos (by decide)]
    rfl
  · intro age sex c h s d v ha
    unfold chads_vasc_score
    rw [if_pos ha]
    rfl
  · intro age w cr ht hw0 hw ha hc
    unfold cockcroft_gault
    rw [if_neg (not_not_intro hw0), if_neg (not_not_intro hw), if_neg (not_not_intro ha),
      if_neg (not_not_intro hc), if_pos (by decide)]
    rfl
  · intro age w cr sex ht hw
    unfold cockcroft_gault
    rw [if_pos (not_lt.mpr hw)]
    rfl

/-- Witness for C3 (amended) at concrete inputs. -/
theorem claim3_error_kinds_witness :
    errKind (chads_vasc_score 30 Sex.diverse false false false false false)
      = some ErrKind.assertK
    ∧ errKind (chads_vasc_score 0 Sex.male false false false false false)
      = some ErrKind.valueK
    ∧ errKind (cockcroft_gault 40 70 1 Sex.diverse Option.none) = some ErrKind.assertK
    ∧ errKind (cockcroft_gault 40 0 1 Sex.male Option.none) = some ErrKind.assertK :=
  ⟨claim3_error_kinds.1 30 false false false false false (by norm_num),
   claim3_error_kinds.2.1 0 Sex.male false false false false false le_rfl,
   claim3_error_kinds.2.2.1 40 70 1 Option.none (by norm_num) (by norm_num) (by norm_num)
     (by norm_num),
   claim3_error_kinds.2.2.2 40 0 1 Sex.male Option.none le_rfl⟩

/-- C10: `cockcroft_gault` accepts creatinine 0 through its validation
(it only requires non-negativity) and then fails with a
`ZeroDivisionError` from the division by 72*0; for positive creatinine
no error occurs at all. -/
theorem claim10_cockcroft_zero_creatinine :
    (∀ (age : ℤ) (w : ℚ) (sex : Sex) (ht : Option ℚ),
        0 < w → w < 400 → 0 < age → (sex = Sex.male ∨ sex = Sex.female) →
        heightOk ht = true →
        cockcroft_gault age w 0 sex ht
          = .error (.zeroDivisionError "float division by zero"))
    ∧ (∀ (age : ℤ) (w c : ℚ) (sex : Sex) (ht : Option ℚ),
        0 < w → w < 400 → 0 < age → 0 < c → (sex = Sex.male ∨ sex = Sex.female) →
        heightOk ht = true →
        errKind (cockcroft_gault age w c sex ht) = none) := by
  constructor
  · intro age w sex ht hw0 hw ha hs hh
    unfold cockcroft_gault
    rw [if_neg (not_not_intro hw0), if_neg (not_not_intro hw), if_neg (not_not_intro ha),
      if_neg (not_not_intro le_rfl), if_neg (not_not_intro hs), if_neg (not_not_intro hh)]
    unfold fdiv
    rw [if_pos (by norm_num)]
    rfl
  · intro age w c sex ht hw0 hw ha hc hs hh
    unfold cockcroft_gault
    rw [if_neg (not_not_intro hw0), if_neg (not_not_intro hw), if_neg (not_not_intro ha),
      if_neg (not_not_intro hc.le), if_neg (not_not_intro hs), if_neg (not_not_intro hh)]
    unfold fdiv
    rw [if_neg (by positivity)]
    rfl

/-- Witness for C10 at concrete inputs. -/
theorem claim10_cockcroft_zero_creatinine_witness :
    cockcroft_gault 40 70 0 Sex.male Option.none
      = .error (.zeroDivisionError "float division by zero")
    ∧ errKind (cockcroft_gault 40 70 1 Sex.male Option.none) = none :=
  ⟨claim10_cockcroft_zero_creatinine.1 40 70 Sex.male Option.none (by norm_num) (by norm_num)
      (by norm_num) (Or.inl rfl) rfl,
   claim10_cockcroft_zero_creatinine.2 40 70 1 Sex.male Option.none (by norm_num) (by norm_num)
      (by norm_num) (by norm_num) (Or.inl rfl) rfl⟩

/-- C6: `child_pugh_score` gives (5, A) on all-best and (15, C) on
all-worst inputs, and in general the score lies in 5–15 with grade A
iff score at most 6, B iff 7–9, and C iff at least 10. -/
theorem claim6_child_pugh :
    (∀ b a i : ℚ, 0 ≤ b → b < 2.0 → 3.5 < a → 0 ≤ i → i < 1.7 →
        child_pugh_score b a i .none .none = .ok (5, .A))
    ∧ (∀ b a i : ℚ, 0 ≤ a → 3.0 < b → a < 2.8 → 2.3 < i →
        child_pugh_score b a i .moderate .grade3_4 = .ok (15, .C))
    ∧ (∀ (b a i : ℚ) (asc : AscitesSeverity) (enc : EncephalopathyGrade),
        0 ≤ b → 0 ≤ a → 0 ≤ i →
        ∃ p : ℤ × ChildPughGrade, child_pugh_score b a i asc enc = .ok p
          ∧ 5 ≤ p.1 ∧ p.1 ≤ 15
          ∧ (p.2 = .A ↔ p.1 ≤ 6)
          ∧ (p.2 = .B ↔ 7 ≤ p.1 ∧ p.1 ≤ 9)
          ∧ (p.2 = .C ↔ 10 ≤ p.1)) := by
  refine ⟨?_, ?_, ?_⟩
  · intro b a i hb0 hb2 ha35 hi0 hi17
    have h1 : ¬(b < 0) := not_lt.mpr hb0
    have h2 : ¬(a < 0) := by linarith
    have h3 : ¬(i < 0) := not_lt.mpr hi0
    have c1 : b < 2 := by linarith
    have c2 : (7 : ℚ)/2 < a := by linarith
    have c3 : i < 17/10 := by linarith
    norm_num [child_pugh_score, h1, h2, h3, c1, c2, c3]
  · intro b a i ha0 hb3 ha28 hi23
    have h1 : ¬(b < 0) := by linarith
    have h2 : ¬(a < 0) := not_lt.mpr ha0
    have h3 : ¬(i < 0) := by linarith
    have c1 : ¬(b < 2) := by linarith
    have c2 : ¬(b ≤ 3) := by linarith
    have c3 : ¬((7 : ℚ)/2 < a) := by linarith
    have c4 : ¬((14 : ℚ)/5 ≤ a) := by linarith
    have c5 : ¬(i < 17/10) := by linarith
    have c6 : ¬(i ≤ 23/10) := by linarith
    norm_num [child_pugh_score, h1, h2, h3, c1, c2, c3, c4, c5, c6]
  · intro b a i asc enc hb ha hi
    unfold child_pugh_score
    rw [if_neg (not_lt.mpr hb), if_neg (not_lt.mpr ha), if_neg (not_lt.mpr hi)]
    refine ⟨_, rfl, ?_⟩
    set s1 : ℤ := if b < 2.0 then 1 else if b ≤ 3.0 then 2 else 3 with hs1
    set s2 : ℤ := if 3.5 < a then 1 else if 2.8 ≤ a then 2 else 3 with hs2
    set s3 : ℤ := if i < 1.7 then 1 else if i ≤ 2.3 then 2 else 3 with hs3
    set s4 : ℤ := (match asc with
      | AscitesSeverity.none => 1
      | AscitesSeverity.slight => 2
      | AscitesSeverity.moderate => 3) with hs4
    set s5 : ℤ := (match enc with
      | EncephalopathyGrade.none => 1
      | EncephalopathyGrade.grade1_2 => 2
      | EncephalopathyGrade.grade3_4 => 3) with hs5
    have b1 : 1 ≤ s1 ∧ s1 ≤ 3 := by rw [hs1]; split_ifs <;> norm_num
    have b2 : 1 ≤ s2 ∧ s2 ≤ 3 := by rw [hs2]; split_ifs <;> norm_num
    have b3 : 1 ≤ s3 ∧ s3 ≤ 3 := by rw [hs3]; split_ifs <;> norm_num
    have b4 : 1 ≤ s4 ∧ s4 ≤ 3 := by rw [hs4]; cases asc <;> norm_num
    have b5 : 1 ≤ s5 ∧ s5 ≤ 3 := by rw [hs5]; cases enc <;> norm_num
    refine ⟨by omega, by omega, ?_, ?_, ?_⟩ <;>
      split_ifs <;> simp_all <;> omega

/-- Witness for C6 at concrete inputs. -/
theorem claim6_child_pugh_witness :
    child_pugh_score 1 4 1 .none .none = .ok (5, .A)
    ∧ child_pugh_score 4 1 3 .moderate .grade3_4 = .ok (15, .C) :=
  ⟨claim6_child_pugh.1 1 4 1 (by norm_num) (by norm_num) (by norm_num) (by norm_num)
      (by norm_num),
   claim6_child_pugh.2.1 4 1 3 (by norm_num) (by norm_num) (by norm_num) (by norm_num)⟩

/-- C7: `qtc_correction(400, 60, f)` returns 400.0 for all four
correction formulas, since the RR interval is 1.0 at heart rate 60 and
the IEEE float power of 1.0 is 1.0 for any exponent. -/
theorem claim7_qtc_identity (powf : ℚ → ℚ → ℚ) (hpow : ∀ e : ℚ, powf 1 e = 1)
    (formula : QtcCorrectionType) :
    qtc_correction powf 400 60 formula = .ok 400 := by
  have hrr : (60 : ℚ) / ((60 : ℤ) : ℚ) = 1 := by norm_num
  unfold qtc_correction
  rw [if_neg (by norm_num), if_neg (by norm_num), if_neg (by norm_num)]
  cases formula <;>
    simp only [hrr, hpow] <;>
    norm_num [fdiv, Except.map, pyRoundDec, pyRoundInt]

/-- Witness for C7 at a concrete power function and formula. -/
theorem claim7_qtc_identity_witness :
    qtc_correction (fun _ _ => 1) 400 60 QtcCorrectionType.bazett = .ok 400 :=
  claim7_qtc_identity (fun _ _ => 1) (fun _ => rfl) QtcCorrectionType.bazett

set_option linter.unreachableTactic false in
set_option linter.unusedTactic false in
/-- C8: `dob2age_tuple` borrows across month and year boundaries using
the actual day count of the calendar month preceding the reference date
(February of leap years included), borrowing a further year (adding 12
months) on a negative month difference; in particular the leap-day
example dob 2000-02-29, ref 2023-02-28 gives (22, 11, 30). -/
theorem claim8_dob2age_tuple_borrow :
    dob2age_tuple ⟨2000, 2, 29⟩ ⟨2023, 2, 28⟩ = (22, 11, 30)
    ∧ (∀ dob today : Date, today.day < dob.day →
        dob2age_tuple dob today =
          (let dim := if today.month = 1 then daysInMonth (today.year - 1) 12
                      else daysInMonth today.year (today.month - 1)
           let d := today.day - dob.day + dim
           let m := today.month - dob.month - 1
           if m < 0 then (today.year - dob.year - 1, m + 12, d)
           else (today.year - dob.year, m, d)))
    ∧ (∀ dob today : Date, dob.day ≤ today.day →
        dob2age_tuple dob today =
          (let m := today.month - dob.month
           let d := today.day - dob.day
           if m < 0 then (today.year - dob.year - 1, m + 12, d)
           else (today.year - dob.year, m, d))) := by
  refine ⟨by decide, ?_, ?_⟩
  · intro dob today hd
    simp only [dob2age_tuple]
    split_ifs <;> simp_all [Prod.mk.injEq] <;> omega
  · intro dob today hd
    simp only [dob2age_tuple]
    split_ifs <;> simp_all [Prod.mk.injEq] <;> omega

/-- Witness for C8 at a concrete pair of dates. -/
theorem claim8_dob2age_tuple_borrow_witness :
    dob2age_tuple ⟨1990, 12, 15⟩ ⟨2023, 10, 10⟩ = (32, 9, 25) := by
  have h := claim8_dob2age_tuple_borrow.2.1 ⟨1990, 12, 15⟩ ⟨2023, 10, 10⟩ (by decide)
  rw [h]
  decide

end Medimetry
